import Mathlib

/-!
Shallow embedding of the conversion / classification core of the
electromagnetic-spectrum-explorer repository, together with proofs of the
spec claims about it.

JavaScript numbers are modelled by `JSVal`: the special values `NaN`,
`+Infinity`, `-Infinity` plus finite values, the latter embedded as exact
rationals (ideal arithmetic; IEEE-754 rounding is not modelled).
-/

/-- A JavaScript `number` as consumed and produced by the core functions:
either the `NaN` sentinel, one of the two infinities, or a finite value
modelled as an exact rational. -/
inductive JSVal where
  | nan : JSVal
  | inf : JSVal
  | ninf : JSVal
  | fin : ℚ → JSVal
deriving DecidableEq, Repr

namespace JSVal

/-- JS `isFinite`. -/
def isFiniteJS : JSVal → Bool
  | fin _ => true
  | _ => false

end JSVal

/-! ### Physics constants (src/data/spectrumData.js, `PHYSICS_CONSTANTS`) -/

def SPEED_OF_LIGHT : ℚ := 299792458

def PLANCK_CONSTANT : ℚ := 6.62607015e-34

def PLANCK_CONSTANT_EV : ℚ := 4.135667696e-15

def ELECTRON_VOLT : ℚ := 1.602176634e-19

/-! ### The six pairwise conversion functions
(src/utils/physicsCalculations.js).

Each source function is `if (!isFinite(x) || x <= 0) return NaN; return
<formula>;`.  `NaN`, `±Infinity` and every non-positive finite input fall
into the guard; a finite positive input reaches the formula. -/

/-- `wavelengthToFrequency(wavelength)`: `f = c / λ`. -/
def wavelengthToFrequency : JSVal → JSVal
  | .fin w => if w ≤ 0 then .nan else .fin (SPEED_OF_LIGHT / w)
  | _ => .nan

/-- `frequencyToWavelength(frequency)`: `λ = c / f`. -/
def frequencyToWavelength : JSVal → JSVal
  | .fin f => if f ≤ 0 then .nan else .fin (SPEED_OF_LIGHT / f)
  | _ => .nan

/-- `frequencyToEnergyJoules(frequency)`: `E = h · f`, with NO input
validation in the source; JS multiplication of the positive finite
constant `h` by the input is modelled case by case. -/
def frequencyToEnergyJoules : JSVal → JSVal
  | .fin f => .fin (PLANCK_CONSTANT * f)
  | .inf => .inf
  | .ninf => .ninf
  | .nan => .nan

/-- `frequencyToEnergyEV(frequency)`: `E = h_eV · f`. -/
def frequencyToEnergyEV : JSVal → JSVal
  | .fin f => if f ≤ 0 then .nan else .fin (PLANCK_CONSTANT_EV * f)
  | _ => .nan

/-- `wavelengthToEnergyEV(wavelength)`: `E = h_eV · c / λ`. -/
def wavelengthToEnergyEV : JSVal → JSVal
  | .fin w => if w ≤ 0 then .nan else .fin (PLANCK_CONSTANT_EV * SPEED_OF_LIGHT / w)
  | _ => .nan

/-- `energyEVToWavelength(energy)`: `λ = h_eV · c / E`. -/
def energyEVToWavelength : JSVal → JSVal
  | .fin e => if e ≤ 0 then .nan else .fin (PLANCK_CONSTANT_EV * SPEED_OF_LIGHT / e)
  | _ => .nan

/-- `energyEVToFrequency(energy)`: `f = E / h_eV`. -/
def energyEVToFrequency : JSVal → JSVal
  | .fin e => if e ≤ 0 then .nan else .fin (e / PLANCK_CONSTANT_EV)
  | _ => .nan

/-- Relative-error predicate used to state the tolerance claims:
`a` approximates `b` within relative error `tol`. -/
def relErrLe (a b tol : ℚ) : Prop := |a - b| ≤ tol * |b|

instance (a b tol : ℚ) : Decidable (relErrLe a b tol) := by
  unfold relErrLe; infer_instance

/-- **C1.** Each of the six pairwise conversion functions returns the `NaN`
sentinel on every zero, negative, `NaN` or `±Infinity` input (being a total
function, it never raises), and returns exactly the documented formula on
every finite strictly positive input. -/
theorem six_conversions_guard_and_formula :
    (∀ f : JSVal → JSVal,
      f ∈ [wavelengthToFrequency, frequencyToWavelength, frequencyToEnergyEV,
           wavelengthToEnergyEV, energyEVToWavelength, energyEVToFrequency] →
      f .nan = .nan ∧ f .inf = .nan ∧ f .ninf = .nan ∧
      ∀ q : ℚ, q ≤ 0 → f (.fin q) = .nan) ∧
    (∀ q : ℚ, 0 < q →
      wavelengthToFrequency (.fin q) = .fin (SPEED_OF_LIGHT / q) ∧
      frequencyToWavelength (.fin q) = .fin (SPEED_OF_LIGHT / q) ∧
      frequencyToEnergyEV (.fin q) = .fin (PLANCK_CONSTANT_EV * q) ∧
      wavelengthToEnergyEV (.fin q) = .fin (PLANCK_CONSTANT_EV * SPEED_OF_LIGHT / q) ∧
      energyEVToWavelength (.fin q) = .fin (PLANCK_CONSTANT_EV * SPEED_OF_LIGHT / q) ∧
      energyEVToFrequency (.fin q) = .fin (q / PLANCK_CONSTANT_EV)) := by
  constructor
  · intro f hf
    fin_cases hf <;>
      refine ⟨rfl, rfl, rfl, fun q hq => ?_⟩ <;>
      simp [wavelengthToFrequency, frequencyToWavelength, frequencyToEnergyEV,
        wavelengthToEnergyEV, energyEVToWavelength, energyEVToFrequency, hq]
  · intro q hq
    have hq' : ¬ q ≤ 0 := not_le.mpr hq
    refine ⟨?_, ?_, ?_, ?_, ?_, ?_⟩ <;>
      simp [wavelengthToFrequency, frequencyToWavelength, frequencyToEnergyEV,
        wavelengthToEnergyEV, energyEVToWavelength, energyEVToFrequency, hq']

/-- Witness for C1 at concrete inputs: `wavelengthToFrequency` maps `0`,
`-1` and `Infinity` to `NaN`, and maps the finite positive input `2` to
`c / 2`. -/
theorem six_conversions_guard_and_formula_witness :
    wavelengthToFrequency (.fin 0) = .nan ∧
    wavelengthToFrequency (.fin (-1)) = .nan ∧
    wavelengthToFrequency .inf = .nan ∧
    wavelengthToFrequency (.fin 2) = .fin (SPEED_OF_LIGHT / 2) := by
  have h := six_conversions_guard_and_formula
  have h0 := h.1 wavelengthToFrequency (by simp)
  exact ⟨h0.2.2.2 0 (by norm_num), h0.2.2.2 (-1) (by norm_num), h0.2.1,
    (h.2 2 (by norm_num)).1⟩

/-- **C2.** For every finite strictly positive wavelength the
frequency round trip `frequencyToWavelength ∘ wavelengthToFrequency` and
the energy round trip `energyEVToWavelength ∘ wavelengthToEnergyEV`
reproduce the wavelength exactly (ideal arithmetic), hence in particular
within relative error `1e-10`. -/
theorem conversion_round_trips (w : ℚ) (hw : 0 < w) :
    frequencyToWavelength (wavelengthToFrequency (.fin w)) = .fin w ∧
    energyEVToWavelength (wavelengthToEnergyEV (.fin w)) = .fin w ∧
    relErrLe w w 1e-10 := by
  have hw' : ¬ w ≤ 0 := not_le.mpr hw
  have hc : (0:ℚ) < SPEED_OF_LIGHT := by norm_num [SPEED_OF_LIGHT]
  have hh : (0:ℚ) < PLANCK_CONSTANT_EV * SPEED_OF_LIGHT := by
    norm_num [PLANCK_CONSTANT_EV, SPEED_OF_LIGHT]
  have hcw : 0 < SPEED_OF_LIGHT / w := div_pos hc hw
  have hhw : 0 < PLANCK_CONSTANT_EV * SPEED_OF_LIGHT / w := div_pos hh hw
  refine ⟨?_, ?_, ?_⟩
  · simp only [wavelengthToFrequency, hw', if_false, frequencyToWavelength,
      not_le.mpr hcw, if_false]
    congr 1
    field_simp
  · simp only [wavelengthToEnergyEV, hw', if_false, energyEVToWavelength,
      not_le.mpr hhw, if_false]
    congr 1
    field_simp
  · simp [relErrLe]
    positivity

/-- Witness for C2 at the concrete wavelength `550e-9` (green light). -/
theorem conversion_round_trips_witness :
    frequencyToWavelength (wavelengthToFrequency (.fin 550e-9)) = .fin 550e-9 ∧
    energyEVToWavelength (wavelengthToEnergyEV (.fin 550e-9)) = .fin 550e-9 :=
  ⟨(conversion_round_trips 550e-9 (by norm_num)).1,
   (conversion_round_trips 550e-9 (by norm_num)).2.1⟩

/-- **C9.** `frequencyToEnergyJoules` performs no input validation: on every
finite input `f` — zero and negative included — it returns the finite value
`h · f` (non-positive when `f` is non-positive), never the `NaN` sentinel,
in contrast to `frequencyToEnergyEV` which returns `NaN` there. -/
theorem frequencyToEnergyJoules_no_validation (f : ℚ) :
    frequencyToEnergyJoules (.fin f) = .fin (PLANCK_CONSTANT * f) ∧
    frequencyToEnergyJoules (.fin f) ≠ .nan ∧
    (f ≤ 0 → PLANCK_CONSTANT * f ≤ 0 ∧ frequencyToEnergyEV (.fin f) = .nan) := by
  refine ⟨rfl, by simp [frequencyToEnergyJoules], fun hf => ⟨?_, ?_⟩⟩
  · have hP : (0:ℚ) ≤ PLANCK_CONSTANT := by norm_num [PLANCK_CONSTANT]
    exact mul_nonpos_iff.mpr (Or.inl ⟨hP, hf⟩)
  · simp [frequencyToEnergyEV, hf]

/-- Witness for C9 at the concrete frequency `-3`. -/
theorem frequencyToEnergyJoules_no_validation_witness :
    frequencyToEnergyJoules (.fin (-3)) = .fin (PLANCK_CONSTANT * (-3)) ∧
    PLANCK_CONSTANT * (-3) ≤ 0 ∧ frequencyToEnergyEV (.fin (-3)) = .nan := by
  have h := frequencyToEnergyJoules_no_validation (-3)
  exact ⟨h.1, (h.2.2 (by norm_num)).1, (h.2.2 (by norm_num)).2⟩

/-! ### Unit conversion tables (src/utils/unitConversions.js) -/

/-- One entry of a unit table: `{ name, symbol, factor }`. -/
structure UnitDef where
  name : String
  symbol : String
  factor : ℚ
deriving DecidableEq, Repr

/-- `WAVELENGTH_UNITS`, keyed by unit symbol. -/
def WAVELENGTH_UNITS : List (String × UnitDef) :=
  [("m", ⟨"meters", "m", 1⟩),
   ("cm", ⟨"centimeters", "cm", 1e-2⟩),
   ("mm", ⟨"millimeters", "mm", 1e-3⟩),
   ("μm", ⟨"micrometers", "μm", 1e-6⟩),
   ("nm", ⟨"nanometers", "nm", 1e-9⟩),
   ("pm", ⟨"picometers", "pm", 1e-12⟩),
   ("fm", ⟨"femtometers", "fm", 1e-15⟩),
   ("Å", ⟨"angstroms", "Å", 1e-10⟩),
   ("km", ⟨"kilometers", "km", 1e3⟩)]

/-- `FREQUENCY_UNITS`, keyed by unit symbol. -/
def FREQUENCY_UNITS : List (String × UnitDef) :=
  [("Hz", ⟨"hertz", "Hz", 1⟩),
   ("kHz", ⟨"kilohertz", "kHz", 1e3⟩),
   ("MHz", ⟨"megahertz", "MHz", 1e6⟩),
   ("GHz", ⟨"gigahertz", "GHz", 1e9⟩),
   ("THz", ⟨"terahertz", "THz", 1e12⟩),
   ("PHz", ⟨"petahertz", "PHz", 1e15⟩)]

/-- `ENERGY_UNITS`, keyed by unit symbol. -/
def ENERGY_UNITS : List (String × UnitDef) :=
  [("eV", ⟨"electron volts", "eV", 1⟩),
   ("meV", ⟨"millielectron volts", "meV", 1e-3⟩),
   ("keV", ⟨"kiloelectron volts", "keV", 1e3⟩),
   ("MeV", ⟨"megaelectron volts", "MeV", 1e6⟩),
   ("GeV", ⟨"gigaelectron volts", "GeV", 1e9⟩),
   ("TeV", ⟨"teraelectron volts", "TeV", 1e12⟩),
   ("J", ⟨"joules", "J", 6.241509074e18⟩)]

/-- The property names an object literal inherits from
`Object.prototype`: for these keys `TABLE[key]` is truthy (a function or
object) even though the key is no own property of the table, so the
`!TABLE[key]` guard does not fire; the inherited value has no `factor`
field, so `.factor` reads `undefined` and the arithmetic yields `NaN`. -/
def OBJECT_PROTOTYPE_KEYS : List String :=
  ["constructor", "hasOwnProperty", "isPrototypeOf", "propertyIsEnumerable",
   "toLocaleString", "toString", "valueOf", "__proto__", "__defineGetter__",
   "__defineSetter__", "__lookupGetter__", "__lookupSetter__"]

/-- Result of the JS property access `TABLE[key]` on a unit-table object
literal: an own entry, an inherited `Object.prototype` member, or
`undefined`. -/
inductive JSProp where
  | missing : JSProp
  | inherited : JSProp
  | own : UnitDef → JSProp
deriving DecidableEq, Repr

/-- JS property access `TABLE[key]`, prototype chain included. -/
def jsGetProp (table : List (String × UnitDef)) (key : String) : JSProp :=
  match table.lookup key with
  | some u => .own u
  | none => if key ∈ OBJECT_PROTOTYPE_KEYS then .inherited else .missing

/-- Shared shape of `convertWavelength` / `convertFrequency` /
`convertEnergy`: throw when `!TABLE[fromUnit] || !TABLE[toUnit]` — that
is, when either property access yields `undefined` — otherwise return
`value * TABLE[fromUnit].factor / TABLE[toUnit].factor`; a unit that
resolves only through the prototype chain contributes `undefined` as its
`factor`, which turns the arithmetic into `NaN`. -/
def convertWithTable (table : List (String × UnitDef)) (kind : String)
    (value : ℚ) (fromUnit toUnit : String) : Except String JSVal :=
  if jsGetProp table fromUnit = .missing ∨ jsGetProp table toUnit = .missing then
    .error ("Invalid " ++ kind ++ " unit: " ++ fromUnit ++ " or " ++ toUnit)
  else
    match jsGetProp table fromUnit, jsGetProp table toUnit with
    | .own fu, .own tu => .ok (.fin (value * fu.factor / tu.factor))
    | _, _ => .ok .nan

/-- `convertWavelength(value, fromUnit, toUnit)`. -/
def convertWavelength (value : ℚ) (fromUnit toUnit : String) : Except String JSVal :=
  convertWithTable WAVELENGTH_UNITS "wavelength" value fromUnit toUnit

/-- `convertFrequency(value, fromUnit, toUnit)`. -/
def convertFrequency (value : ℚ) (fromUnit toUnit : String) : Except String JSVal :=
  convertWithTable FREQUENCY_UNITS "frequency" value fromUnit toUnit

/-- `convertEnergy(value, fromUnit, toUnit)`. -/
def convertEnergy (value : ℚ) (fromUnit toUnit : String) : Except String JSVal :=
  convertWithTable ENERGY_UNITS "energy" value fromUnit toUnit

/-- `jsGetProp` finds an own entry exactly when the table lists the key. -/
theorem jsGetProp_own_iff (t : List (String × UnitDef)) (k : String) (u : UnitDef) :
    jsGetProp t k = .own u ↔ t.lookup k = some u := by
  unfold jsGetProp
  rcases h : t.lookup k with _ | v
  · split
    · simp_all
    · split <;> simp
  · simp

/-- `jsGetProp` yields `undefined` exactly when the key is neither a
table key nor an inherited `Object.prototype` name. -/
theorem jsGetProp_missing_iff (t : List (String × UnitDef)) (k : String) :
    jsGetProp t k = .missing ↔ t.lookup k = none ∧ k ∉ OBJECT_PROTOTYPE_KEYS := by
  unfold jsGetProp
  rcases h : t.lookup k with _ | v
  · split
    · simp_all
    · split <;> simp_all
  · simp

/-- Counterexample to C4 as stated: `'toString'` is absent from the
wavelength unit table, yet `convertWavelength 500 "toString" "m"` does
not raise an error — the JS property access finds the inherited
`Object.prototype.toString`, the truthiness guard passes, and the
missing `factor` makes the result `NaN` rather than
`value · factor(fromUnit) / factor(toUnit)`. -/
theorem convert_prototype_chain_counterexample :
    WAVELENGTH_UNITS.lookup "toString" = none ∧
    "toString" ∈ OBJECT_PROTOTYPE_KEYS ∧
    convertWavelength 500 "toString" "m" = .ok .nan ∧
    (convertWavelength 500 "toString" "m").isOk = true := by
  exact ⟨rfl, by decide, rfl, rfl⟩

/-- **C4 (amended).** Each `convert*` function fails — with an error
message naming both requested unit symbols — exactly when one of the two
symbols is neither a key of its table nor an inherited
`Object.prototype` property name; on any pair of table keys and any
finite value (zero and negative included) it returns
`value · factor(fromUnit) / factor(toUnit)` with no rounding; and when
it does not fail although a symbol is absent from the table (a
prototype-chain name such as `'toString'`), it returns `NaN` instead of
the formula.  Concretely, `convertWavelength 500 "nm" "m"` is exactly
`500e-9`. -/
theorem convert_unknown_unit_iff_and_formula :
    (∀ table kind value fromUnit toUnit,
      ((convertWithTable table kind value fromUnit toUnit).isOk = false ↔
        (table.lookup fromUnit = none ∧ fromUnit ∉ OBJECT_PROTOTYPE_KEYS) ∨
        (table.lookup toUnit = none ∧ toUnit ∉ OBJECT_PROTOTYPE_KEYS)) ∧
      (∀ fu tu, table.lookup fromUnit = some fu → table.lookup toUnit = some tu →
        convertWithTable table kind value fromUnit toUnit =
          .ok (.fin (value * fu.factor / tu.factor))) ∧
      ((convertWithTable table kind value fromUnit toUnit).isOk = false →
        convertWithTable table kind value fromUnit toUnit =
          .error ("Invalid " ++ kind ++ " unit: " ++ fromUnit ++ " or " ++ toUnit)) ∧
      ((convertWithTable table kind value fromUnit toUnit).isOk = true →
        table.lookup fromUnit = none ∨ table.lookup toUnit = none →
        convertWithTable table kind value fromUnit toUnit = .ok .nan)) ∧
    (∀ value fromUnit toUnit,
      convertWavelength value fromUnit toUnit =
        convertWithTable WAVELENGTH_UNITS "wavelength" value fromUnit toUnit ∧
      convertFrequency value fromUnit toUnit =
        convertWithTable FREQUENCY_UNITS "frequency" value fromUnit toUnit ∧
      convertEnergy value fromUnit toUnit =
        convertWithTable ENERGY_UNITS "energy" value fromUnit toUnit) ∧
    convertWavelength 500 "nm" "m" = .ok (.fin 500e-9) := by
  have hmain : ∀ (table : List (String × UnitDef)) (kind : String) (value : ℚ)
      (fromUnit toUnit : String),
      ((convertWithTable table kind value fromUnit toUnit).isOk = false ↔
        (table.lookup fromUnit = none ∧ fromUnit ∉ OBJECT_PROTOTYPE_KEYS) ∨
        (table.lookup toUnit = none ∧ toUnit ∉ OBJECT_PROTOTYPE_KEYS)) ∧
      (∀ fu tu, table.lookup fromUnit = some fu → table.lookup toUnit = some tu →
        convertWithTable table kind value fromUnit toUnit =
          .ok (.fin (value * fu.factor / tu.factor))) ∧
      ((convertWithTable table kind value fromUnit toUnit).isOk = false →
        convertWithTable table kind value fromUnit toUnit =
          .error ("Invalid " ++ kind ++ " unit: " ++ fromUnit ++ " or " ++ toUnit)) ∧
      ((convertWithTable table kind value fromUnit toUnit).isOk = true →
        table.lookup fromUnit = none ∨ table.lookup toUnit = none →
        convertWithTable table kind value fromUnit toUnit = .ok .nan) := by
    intro table kind value fromUnit toUnit
    refine ⟨?_, ?_, ?_, ?_⟩
    · unfold convertWithTable
      by_cases hg : (jsGetProp table fromUnit = .missing ∨
          jsGetProp table toUnit = .missing)
      · rw [if_pos hg]
        simp only [Except.isOk, Except.toBool]
        constructor
        · intro _
          rcases hg with h | h
          · exact Or.inl ((jsGetProp_missing_iff table fromUnit).mp h)
          · exact Or.inr ((jsGetProp_missing_iff table toUnit).mp h)
        · intro _
          trivial
      · rw [if_neg hg]
        push_neg at hg
        constructor
        · intro hfalse
          exfalso
          rcases hF : jsGetProp table fromUnit with _ | _ | fu <;>
            rcases hT : jsGetProp table toUnit with _ | _ | tu <;>
              (rw [hF, hT] at hfalse;
                exact absurd hfalse (by simp [Except.isOk, Except.toBool]))
        · rintro (⟨hn, hp⟩ | ⟨hn, hp⟩)
          · exact absurd ((jsGetProp_missing_iff table fromUnit).mpr ⟨hn, hp⟩) hg.1
          · exact absurd ((jsGetProp_missing_iff table toUnit).mpr ⟨hn, hp⟩) hg.2
    · intro fu tu hf ht
      have h1 := (jsGetProp_own_iff table fromUnit fu).mpr hf
      have h2 := (jsGetProp_own_iff table toUnit tu).mpr ht
      unfold convertWithTable
      rw [if_neg (by rw [h1, h2]; simp), h1, h2]
    · intro hne
      unfold convertWithTable at hne ⊢
      by_cases hg : (jsGetProp table fromUnit = .missing ∨
          jsGetProp table toUnit = .missing)
      · rw [if_pos hg]
      · exfalso
        rw [if_neg hg] at hne
        rcases hF : jsGetProp table fromUnit with _ | _ | fu <;>
          rcases hT : jsGetProp table toUnit with _ | _ | tu <;>
            (rw [hF, hT] at hne;
              exact absurd hne (by simp [Except.isOk, Except.toBool]))
    · intro hok hnone
      unfold convertWithTable at hok ⊢
      by_cases hg : (jsGetProp table fromUnit = .missing ∨
          jsGetProp table toUnit = .missing)
      · rw [if_pos hg] at hok
        exact absurd hok (by simp [Except.isOk, Except.toBool])
      · rw [if_neg hg] at hok ⊢
        push_neg at hg
        rcases hnone with hn | hn
        · have hinh : jsGetProp table fromUnit = .inherited := by
            rcases hF : jsGetProp table fromUnit with _ | _ | u
            · exact absurd hF hg.1
            · rfl
            · rw [jsGetProp_own_iff] at hF
              rw [hF] at hn
              exact absurd hn (by simp)
          rw [hinh]
        · have hinh : jsGetProp table toUnit = .inherited := by
            rcases hT : jsGetProp table toUnit with _ | _ | u
            · exact absurd hT hg.2
            · rfl
            · rw [jsGetProp_own_iff] at hT
              rw [hT] at hn
              exact absurd hn (by simp)
          rw [hinh]
          rcases hF : jsGetProp table fromUnit with _ | _ | u <;> rfl
  refine ⟨hmain, fun _ _ _ => ⟨rfl, rfl, rfl⟩, ?_⟩
  have h := (hmain WAVELENGTH_UNITS "wavelength" 500 "nm" "m").2.1
    ⟨"nanometers", "nm", 1e-9⟩ ⟨"meters", "m", 1⟩ rfl rfl
  rw [show convertWavelength 500 "nm" "m" =
    convertWithTable WAVELENGTH_UNITS "wavelength" 500 "nm" "m" from rfl, h]
  norm_num

/-- Witness for C4 (amended): the formula at the known pair `nm` → `m`,
the failure characterization at the unknown symbol `parsec`, and the
`NaN` outcome at the prototype-chain name `toString`. -/
theorem convert_unknown_unit_iff_and_formula_witness :
    convertWavelength 2 "nm" "m" = .ok (.fin (2 * (1e-9 : ℚ) / 1)) ∧
    ((convertWithTable WAVELENGTH_UNITS "wavelength" 2 "parsec" "m").isOk = false ↔
      (WAVELENGTH_UNITS.lookup "parsec" = none ∧
        "parsec" ∉ OBJECT_PROTOTYPE_KEYS) ∨
      (WAVELENGTH_UNITS.lookup "m" = none ∧ "m" ∉ OBJECT_PROTOTYPE_KEYS)) ∧
    convertWavelength 500 "toString" "m" = .ok .nan := by
  have h := convert_unknown_unit_iff_and_formula
  refine ⟨?_, (h.1 WAVELENGTH_UNITS "wavelength" 2 "parsec" "m").1, ?_⟩
  · have h2 := (h.2.1 2 "nm" "m").1
    rw [h2]
    exact (h.1 WAVELENGTH_UNITS "wavelength" 2 "nm" "m").2.1 ⟨"nanometers", "nm", 1e-9⟩
      ⟨"meters", "m", 1⟩ rfl rfl
  · exact (h.1 WAVELENGTH_UNITS "wavelength" 500 "toString" "m").2.2.2 rfl (Or.inl rfl)

/-! ### Spectrum catalog (src/data/spectrumData.js) -/

/-- One named sub-band of the visible region. -/
structure SubRegion where
  name : String
  wavelength : ℚ
  color : String
deriving DecidableEq, Repr

/-- One entry of `SPECTRUM_REGIONS`. -/
structure SpectrumRegion where
  id : String
  name : String
  color : String
  wavelengthMin : ℚ
  wavelengthMax : ℚ
  frequencyMin : ℚ
  frequencyMax : ℚ
  energyMin : ℚ
  energyMax : ℚ
  description : String
  applications : List String
  examples : List String
  subregions : List SubRegion
deriving DecidableEq, Repr

/-- The static spectrum catalog, in the source order (ascending
wavelength).  Fields in constructor order: id, name, color,
wavelengthMin/Max, frequencyMin/Max, energyMin/Max, description,
applications, examples, subregions. -/
def SPECTRUM_REGIONS : List SpectrumRegion :=
  [⟨"gamma", "Gamma Rays", "#B19CD9",
    1e-15, 10e-12, 3e19, 3e23, 124000, 1e12,
    "Gamma rays are the most energetic form of electromagnetic radiation.",
    ["Cancer treatment (radiotherapy)", "Medical imaging (PET scans)",
     "Nuclear medicine", "Gamma-ray astronomy", "Food sterilization",
     "Industrial radiography"],
    ["Cobalt-60 therapy: 1.17 and 1.33 MeV", "PET scan tracers: 511 keV",
     "Cosmic gamma rays: up to TeV energies"],
    []⟩,
   ⟨"xray", "X-rays", "#DDA0DD",
    10e-12, 10e-9, 3e16, 3e19, 124, 124000,
    "X-rays have high energy and can penetrate soft tissues but are absorbed by bones.",
    ["Medical imaging", "Airport security scanners", "X-ray crystallography",
     "X-ray astronomy", "Industrial inspection", "Cancer treatment"],
    ["Medical X-rays: 10-100 keV", "Dental X-rays: 60-70 keV",
     "Chest X-rays: 120 kVp"],
    []⟩,
   ⟨"ultraviolet", "Ultraviolet", "#FFEAA7",
    10e-9, 380e-9, 7.9e14, 3e16, 3.26, 124,
    "Ultraviolet radiation has higher energy than visible light and can cause sunburn.",
    ["Sterilization and disinfection", "Fluorescent lighting", "Tanning beds",
     "UV astronomy", "Photolithography", "Vitamin D synthesis"],
    ["UV-A: 315-400 nm (tanning, aging)", "UV-B: 280-315 nm (sunburn, vitamin D)",
     "UV-C: 100-280 nm (germicidal, ozone layer absorption)"],
    []⟩,
   ⟨"visible", "Visible Light", "#96CEB4",
    380e-9, 700e-9, 4.3e14, 7.9e14, 1.77, 3.26,
    "Visible light is the only part of the electromagnetic spectrum that human eyes can detect.",
    ["Human vision", "Photography", "Optical microscopy", "Laser technology",
     "Fiber optic communications", "Solar panels"],
    ["Red light: ~700 nm wavelength", "Green light: ~550 nm wavelength",
     "Blue light: ~450 nm wavelength", "Violet light: ~400 nm wavelength"],
    [⟨"Red", 700e-9, "#FF0000"⟩, ⟨"Orange", 620e-9, "#FFA500"⟩,
     ⟨"Yellow", 570e-9, "#FFFF00"⟩, ⟨"Green", 530e-9, "#00FF00"⟩,
     ⟨"Blue", 470e-9, "#0000FF"⟩, ⟨"Indigo", 420e-9, "#4B0082"⟩,
     ⟨"Violet", 380e-9, "#8B00FF"⟩]⟩,
   ⟨"infrared", "Infrared", "#45B7D1",
    700e-9, 1e-3, 3e11, 4.3e14, 1.24e-3, 1.77,
    "Infrared radiation is heat radiation that we can feel but cannot see.",
    ["Night vision equipment", "Thermal imaging cameras", "Remote controls",
     "Infrared astronomy", "Medical thermography", "Heat lamps"],
    ["Human body temperature corresponds to ~10 μm infrared",
     "TV remote controls use ~940 nm infrared",
     "Thermal cameras detect 8-14 μm infrared"],
    []⟩,
   ⟨"microwave", "Microwaves", "#4ECDC4",
    1e-3, 1e-1, 3e9, 3e11, 1.24e-5, 1.24e-3,
    "Microwaves are used for cooking food and satellite communications.",
    ["Microwave ovens", "Satellite communication", "GPS systems",
     "Weather radar", "Bluetooth technology",
     "Cosmic microwave background radiation detection"],
    ["Microwave ovens operate at 2.45 GHz",
     "GPS satellites transmit at 1.2 and 1.6 GHz",
     "The cosmic microwave background peaks around 160 GHz"],
    []⟩,
   ⟨"radio", "Radio Waves", "#FF6B6B",
    1e-1, 1e4, 3e4, 3e9, 1.24e-10, 1.24e-5,
    "Radio waves have the longest wavelengths and lowest energies in the electromagnetic spectrum.",
    ["AM/FM radio broadcasting", "Television transmission",
     "Cell phone communication", "WiFi and Bluetooth", "Radio astronomy",
     "Radar systems"],
    ["Radio stations broadcast at frequencies around 100 MHz",
     "Cell phones operate around 800-2100 MHz",
     "WiFi uses 2.4 GHz and 5 GHz bands"],
    []⟩]

/-- `getRegionByWavelength(wavelength)`: guard against non-finite or
non-positive input, then `SPECTRUM_REGIONS.find(...)` — the first region
whose closed wavelength interval contains the input — with `|| null`
modelled by `Option`. -/
def getRegionByWavelength : JSVal → Option SpectrumRegion
  | .fin w =>
    if w ≤ 0 then none
    else SPECTRUM_REGIONS.find? fun r =>
      decide (r.wavelengthMin ≤ w) && decide (w ≤ r.wavelengthMax)
  | _ => none

/-- **C3.** `getRegionByWavelength` returns `none` on `NaN`, `±Infinity`
and non-positive inputs; on positive finite input it is exactly the
first-match linear scan of the catalog (whose regions are stored in
ascending, contiguous wavelength order); any returned region is a catalog
member whose closed interval contains the input, and an input outside
every region yields `none`.  Concretely `550e-9` classifies as visible,
`1e-15` as gamma, `1e2` as radio, and `-1` yields `none`. -/
theorem getRegionByWavelength_spec :
    (getRegionByWavelength .nan = none ∧ getRegionByWavelength .inf = none ∧
     getRegionByWavelength .ninf = none ∧
     ∀ q : ℚ, q ≤ 0 → getRegionByWavelength (.fin q) = none) ∧
    (∀ w : ℚ, 0 < w →
      getRegionByWavelength (.fin w) = SPECTRUM_REGIONS.find? fun r =>
        decide (r.wavelengthMin ≤ w) && decide (w ≤ r.wavelengthMax)) ∧
    List.Chain' (fun a b => a.wavelengthMax ≤ b.wavelengthMin) SPECTRUM_REGIONS ∧
    (∀ w : ℚ, (∀ r ∈ SPECTRUM_REGIONS,
        ¬ (r.wavelengthMin ≤ w ∧ w ≤ r.wavelengthMax)) →
      getRegionByWavelength (.fin w) = none) ∧
    (∀ w r, getRegionByWavelength (.fin w) = some r →
      r ∈ SPECTRUM_REGIONS ∧ r.wavelengthMin ≤ w ∧ w ≤ r.wavelengthMax) ∧
    ((getRegionByWavelength (.fin 550e-9)).map (fun r => r.id) = some "visible" ∧
     (getRegionByWavelength (.fin 1e-15)).map (fun r => r.id) = some "gamma" ∧
     (getRegionByWavelength (.fin 1e2)).map (fun r => r.id) = some "radio" ∧
     getRegionByWavelength (.fin (-1)) = none) := by
  refine ⟨⟨rfl, rfl, rfl, fun q hq => by simp [getRegionByWavelength, hq]⟩,
    fun w hw => by simp [getRegionByWavelength, not_le.mpr hw],
    by simp [SPECTRUM_REGIONS, List.chain'_cons],
    fun w hall => ?_, fun w r hfind => ?_, ⟨?_, ?_, ?_, ?_⟩⟩
  · show (if w ≤ 0 then none else SPECTRUM_REGIONS.find? fun r =>
      decide (r.wavelengthMin ≤ w) && decide (w ≤ r.wavelengthMax)) = none
    split
    · rfl
    · rw [List.find?_eq_none]
      intro r hr
      have := hall r hr
      simp only [Bool.and_eq_true, decide_eq_true_eq]
      tauto
  · have hfind' : (if w ≤ 0 then none else SPECTRUM_REGIONS.find? fun r =>
        decide (r.wavelengthMin ≤ w) && decide (w ≤ r.wavelengthMax)) = some r := hfind
    split at hfind'
    · exact absurd hfind' (by simp)
    · have hmem := List.mem_of_find?_eq_some hfind'
      have hp := List.find?_some hfind'
      simp only [Bool.and_eq_true, decide_eq_true_eq] at hp
      exact ⟨hmem, hp.1, hp.2⟩
  · show ((if (550e-9:ℚ) ≤ 0 then none else SPECTRUM_REGIONS.find? fun r =>
      decide (r.wavelengthMin ≤ (550e-9:ℚ)) &&
        decide ((550e-9:ℚ) ≤ r.wavelengthMax)).map (fun r => r.id)) = some "visible"
    rw [if_neg (by norm_num)]
    unfold SPECTRUM_REGIONS
    rw [List.find?_cons_of_neg _ (by simp; norm_num),
      List.find?_cons_of_neg _ (by simp; norm_num),
      List.find?_cons_of_neg _ (by simp; norm_num),
      List.find?_cons_of_pos _ (by simp; norm_num)]
    rfl
  · show ((if (1e-15:ℚ) ≤ 0 then none else SPECTRUM_REGIONS.find? fun r =>
      decide (r.wavelengthMin ≤ (1e-15:ℚ)) &&
        decide ((1e-15:ℚ) ≤ r.wavelengthMax)).map (fun r => r.id)) = some "gamma"
    rw [if_neg (by norm_num)]
    unfold SPECTRUM_REGIONS
    rw [List.find?_cons_of_pos _ (by simp; norm_num)]
    rfl
  · show ((if (1e2:ℚ) ≤ 0 then none else SPECTRUM_REGIONS.find? fun r =>
      decide (r.wavelengthMin ≤ (1e2:ℚ)) &&
        decide ((1e2:ℚ) ≤ r.wavelengthMax)).map (fun r => r.id)) = some "radio"
    rw [if_neg (by norm_num)]
    unfold SPECTRUM_REGIONS
    rw [List.find?_cons_of_neg _ (by simp; norm_num),
      List.find?_cons_of_neg _ (by simp; norm_num),
      List.find?_cons_of_neg _ (by simp; norm_num),
      List.find?_cons_of_neg _ (by simp; norm_num),
      List.find?_cons_of_neg _ (by simp; norm_num),
      List.find?_cons_of_neg _ (by simp; norm_num),
      List.find?_cons_of_pos _ (by simp; norm_num)]
    rfl
  · show (if (-1:ℚ) ≤ 0 then none else SPECTRUM_REGIONS.find? fun r =>
      decide (r.wavelengthMin ≤ (-1:ℚ)) && decide ((-1:ℚ) ≤ r.wavelengthMax)) = none
    rw [if_pos (by norm_num)]

/-- Witness for C3: the hypothesis-bearing conjuncts instantiated
concretely — the guard at `q = -2`, the scan equation at `w = 1`, the
outside-every-region case at `w = 1e9` (beyond the radio maximum `1e4`),
and the soundness of the returned region at `w = 550e-9`. -/
theorem getRegionByWavelength_spec_witness :
    getRegionByWavelength (.fin (-2)) = none ∧
    (getRegionByWavelength (.fin 1) = SPECTRUM_REGIONS.find? fun r =>
      decide (r.wavelengthMin ≤ (1:ℚ)) && decide ((1:ℚ) ≤ r.wavelengthMax)) ∧
    getRegionByWavelength (.fin 1e9) = none ∧
    (∀ r, getRegionByWavelength (.fin 550e-9) = some r →
      r ∈ SPECTRUM_REGIONS ∧ r.wavelengthMin ≤ 550e-9 ∧ (550e-9:ℚ) ≤ r.wavelengthMax) := by
  have h := getRegionByWavelength_spec
  refine ⟨h.1.2.2.2 (-2) (by norm_num), h.2.1 1 (by norm_num),
    h.2.2.2.1 1e9 ?_, fun r hr => h.2.2.2.2.1 550e-9 r hr⟩
  intro r hr
  simp only [SPECTRUM_REGIONS, List.mem_cons, List.not_mem_nil, or_false] at hr
  rcases hr with rfl | rfl | rfl | rfl | rfl | rfl | rfl <;> norm_num

/-- Convenience introduction rule for `relErrLe` with a positive reference
value, splitting the absolute value into two plain inequalities. -/
theorem relErrLe_of (a b tol : ℚ) (h1 : 0 < b) (h2 : -(tol * b) ≤ a - b)
    (h3 : a - b ≤ tol * b) : relErrLe a b tol := by
  unfold relErrLe
  rw [abs_of_pos h1]
  exact abs_le.mpr ⟨h2, h3⟩

/-- Counterexample to C5 as stated: the first catalog entry is the gamma
region, whose stored `energyMax` is `1e12` eV while the energy derived
from its `wavelengthMin` via `E = h_eV·c/λ` is about `1.24e9` eV — a
relative discrepancy far beyond 10%. -/
theorem catalog_energy_relation_counterexample :
    SPECTRUM_REGIONS.head?.map (fun r => (r.id, r.wavelengthMin, r.energyMax)) =
      some ("gamma", 1e-15, 1e12) ∧
    ¬ relErrLe (PLANCK_CONSTANT_EV * SPEED_OF_LIGHT / 1e-15) 1e12 (1/10) := by
  refine ⟨rfl, fun hc => ?_⟩
  unfold relErrLe at hc
  have h1 : (1e12:ℚ) - PLANCK_CONSTANT_EV * SPEED_OF_LIGHT / 1e-15 ≤
      |PLANCK_CONSTANT_EV * SPEED_OF_LIGHT / 1e-15 - 1e12| := by
    rw [abs_sub_comm]
    exact le_abs_self _
  have h2 : |(1e12:ℚ)| = 1e12 := abs_of_pos (by norm_num)
  rw [h2] at hc
  have hA : PLANCK_CONSTANT_EV * SPEED_OF_LIGHT / (1e-15:ℚ) < 2e9 := by
    norm_num [PLANCK_CONSTANT_EV, SPEED_OF_LIGHT]
  linarith

/-- **C5 (amended).** Every region's stored frequency endpoints agree with
`f = c/λ` within 10% relative error (`frequencyMax` against
`wavelengthMin`, `frequencyMin` against `wavelengthMax`), and every stored
energy endpoint agrees with `E = h_eV·c/λ` within the same tolerance,
except the gamma region's `energyMax`, which is stored as an "extended"
`1e12` eV and does not correspond to its `wavelengthMin`. -/
theorem catalog_ranges_consistent_amended :
    ∀ r ∈ SPECTRUM_REGIONS,
      relErrLe (SPEED_OF_LIGHT / r.wavelengthMax) r.frequencyMin (1/10) ∧
      relErrLe (SPEED_OF_LIGHT / r.wavelengthMin) r.frequencyMax (1/10) ∧
      relErrLe (PLANCK_CONSTANT_EV * SPEED_OF_LIGHT / r.wavelengthMax) r.energyMin (1/10) ∧
      (r.id ≠ "gamma" →
        relErrLe (PLANCK_CONSTANT_EV * SPEED_OF_LIGHT / r.wavelengthMin) r.energyMax (1/10)) := by
  intro r hr
  simp only [SPECTRUM_REGIONS, List.mem_cons, List.not_mem_nil, or_false] at hr
  rcases hr with rfl | rfl | rfl | rfl | rfl | rfl | rfl
  · exact ⟨by apply relErrLe_of <;> norm_num [SPEED_OF_LIGHT],
      by apply relErrLe_of <;> norm_num [SPEED_OF_LIGHT],
      by apply relErrLe_of <;> norm_num [SPEED_OF_LIGHT, PLANCK_CONSTANT_EV],
      fun h => absurd rfl h⟩
  all_goals refine ⟨?_, ?_, ?_, fun _ => ?_⟩ <;>
    apply relErrLe_of <;> norm_num [SPEED_OF_LIGHT, PLANCK_CONSTANT_EV]

/-- Witness for C5 (amended) at the visible-light region: both frequency
endpoints and both energy endpoints check out against its wavelength
bounds. -/
theorem catalog_ranges_consistent_amended_witness :
    relErrLe (SPEED_OF_LIGHT / 700e-9) 4.3e14 (1/10) ∧
    relErrLe (SPEED_OF_LIGHT / 380e-9) 7.9e14 (1/10) ∧
    relErrLe (PLANCK_CONSTANT_EV * SPEED_OF_LIGHT / 700e-9) 1.77 (1/10) ∧
    relErrLe (PLANCK_CONSTANT_EV * SPEED_OF_LIGHT / 380e-9) 3.26 (1/10) := by
  have h := catalog_ranges_consistent_amended
    ⟨"visible", "Visible Light", "#96CEB4",
      380e-9, 700e-9, 4.3e14, 7.9e14, 1.77, 3.26,
      "Visible light is the only part of the electromagnetic spectrum that human eyes can detect.",
      ["Human vision", "Photography", "Optical microscopy", "Laser technology",
       "Fiber optic communications", "Solar panels"],
      ["Red light: ~700 nm wavelength", "Green light: ~550 nm wavelength",
       "Blue light: ~450 nm wavelength", "Violet light: ~400 nm wavelength"],
      [⟨"Red", 700e-9, "#FF0000"⟩, ⟨"Orange", 620e-9, "#FFA500"⟩,
       ⟨"Yellow", 570e-9, "#FFFF00"⟩, ⟨"Green", 530e-9, "#00FF00"⟩,
       ⟨"Blue", 470e-9, "#0000FF"⟩, ⟨"Indigo", 420e-9, "#4B0082"⟩,
       ⟨"Violet", 380e-9, "#8B00FF"⟩]⟩
    (by simp [SPECTRUM_REGIONS])
  exact ⟨h.1, h.2.1, h.2.2.1, h.2.2.2 (by simp)⟩

/-! ### Logarithmic-scale positioning (src/utils/physicsCalculations.js).
`Math.log10` and `Math.pow(10, ·)` are transcendental, so this component
is embedded over `ℝ` (ideal real arithmetic) rather than `ℚ`. -/

/-- `getLogPosition(value, min, max)`. -/
noncomputable def getLogPosition (value min max : ℝ) : ℝ :=
  if value ≤ 0 ∨ min ≤ 0 ∨ max ≤ 0 then 0
  else (Real.logb 10 value - Real.logb 10 min) /
    (Real.logb 10 max - Real.logb 10 min)

/-- `getValueFromLogPosition(position, min, max)`. -/
noncomputable def getValueFromLogPosition (position min max : ℝ) : ℝ :=
  if min ≤ 0 ∨ max ≤ 0 then 0
  else (10:ℝ) ^ (Real.logb 10 min +
    position * (Real.logb 10 max - Real.logb 10 min))

/-- **C6.** For `0 < min < max` and any `value` in `[min, max]`,
`getValueFromLogPosition` inverts `getLogPosition` exactly over ideal real
arithmetic (hence in particular within relative tolerance `1e-6`); and the
degenerate guards hold: `getLogPosition` returns `0` whenever `value`,
`min` or `max` is non-positive, and `getValueFromLogPosition` returns `0`
whenever `min` or `max` is non-positive — neither ever raises. -/
theorem log_position_round_trip :
    (∀ mn mx v : ℝ, 0 < mn → mn < mx → mn ≤ v → v ≤ mx →
      getValueFromLogPosition (getLogPosition v mn mx) mn mx = v) ∧
    (∀ v mn mx : ℝ, v ≤ 0 ∨ mn ≤ 0 ∨ mx ≤ 0 → getLogPosition v mn mx = 0) ∧
    (∀ p mn mx : ℝ, mn ≤ 0 ∨ mx ≤ 0 → getValueFromLogPosition p mn mx = 0) := by
  refine ⟨fun mn mx v hmn hlt hv1 hv2 => ?_,
    fun v mn mx h => by simp [getLogPosition, h],
    fun p mn mx h => by simp [getValueFromLogPosition, h]⟩
  have hv : 0 < v := lt_of_lt_of_le hmn hv1
  have hmx : 0 < mx := lt_trans hmn hlt
  have hne : Real.logb 10 mx - Real.logb 10 mn ≠ 0 :=
    sub_ne_zero.mpr (ne_of_gt (Real.logb_lt_logb (by norm_num) hmn hlt))
  rw [getLogPosition, if_neg (by push_neg; exact ⟨hv, hmn, hmx⟩),
    getValueFromLogPosition, if_neg (by push_neg; exact ⟨hmn, hmx⟩),
    div_mul_cancel₀ _ hne, add_sub_cancel]
  exact Real.rpow_logb (by norm_num) (by norm_num) hv

/-- Witness for C6: the round trip at `value = 10` on `[1, 100]`, the
`getLogPosition` guard at `value = -1`, and the `getValueFromLogPosition`
guard at `min = -1`. -/
theorem log_position_round_trip_witness :
    getValueFromLogPosition (getLogPosition 10 1 100) 1 100 = 10 ∧
    getLogPosition (-1) 1 100 = 0 ∧
    getValueFromLogPosition (1/2) (-1) 100 = 0 :=
  ⟨log_position_round_trip.1 1 100 10 (by norm_num) (by norm_num) (by norm_num)
      (by norm_num),
   log_position_round_trip.2.1 (-1) 1 100 (Or.inl (by norm_num)),
   log_position_round_trip.2.2 (1/2) (-1) 100 (Or.inl (by norm_num))⟩

/-! ### Free-text parsing (src/utils/physicsCalculations.js:
`safeParseFloat`, `parseWavelength`, `parseFrequency`, `parseEnergy`).

The JS string operations (`trim`, `toLowerCase`,
`replace(/[0-9.\-+e\s]/g, '')`, `includes`, `parseFloat`) are embedded as
structural functions on `List Char`; `parseFloat` is split into a purely
syntactic phase (`jsParseFloat`, returning the sign / digit / exponent
parts of the longest valid numeric prefix) and a semantic phase
(`partsToRat`) that assembles the exact rational value. -/

/-- The ASCII whitespace characters matched by JS `\s` / `trim`. -/
def isJsSpace (c : Char) : Bool :=
  c == ' ' || c == '\t' || c == '\n' || c == '\r' ||
    c.toNat == 11 || c.toNat == 12

/-- JS `String.prototype.trim`. -/
def jsTrim (s : String) : String :=
  String.mk (((s.toList.dropWhile isJsSpace).reverse.dropWhile isJsSpace).reverse)

/-- JS `String.prototype.toLowerCase`, restricted to the characters this
code base feeds it (ASCII letters plus the Ångström sign). -/
def jsToLowerChar (c : Char) : Char :=
  if 65 ≤ c.toNat && c.toNat ≤ 90 then Char.ofNat (c.toNat + 32)
  else if c == 'Å' then 'å' else c

/-- One character of the class `[0-9.\-+e\s]` removed by the unit-suffix
extraction regex. -/
def isStrippedChar (c : Char) : Bool :=
  c.isDigit || c == '.' || c == '-' || c == '+' || c == 'e' || isJsSpace c

/-- `input.toLowerCase().replace(/[0-9.\-+e\s]/g, '')` — the unit suffix
as the source computes it. -/
def stripUnit (input : String) : String :=
  String.mk ((input.toList.map jsToLowerChar).filter fun c => !(isStrippedChar c))

/-- JS `String.prototype.includes`, on character lists. -/
def listContains (needle : List Char) : List Char → Bool
  | [] => needle.isEmpty
  | c :: rest => needle.isPrefixOf (c :: rest) || listContains needle rest

/-- Syntactic decomposition of a JS float literal: sign, integer digits,
fraction digits, decimal exponent. -/
structure FloatParts where
  neg : Bool
  intDigits : List Nat
  fracDigits : List Nat
  exp : ℤ
deriving DecidableEq, Repr

/-- Outcome of JS `parseFloat`: `NaN`, a signed `Infinity` literal, or a
parsed numeric prefix. -/
inductive ParseOut where
  | nan : ParseOut
  | inf : Bool → ParseOut
  | val : FloatParts → ParseOut
deriving DecidableEq, Repr

/-- Decimal digit list to natural number. -/
def digitsToNat (ds : List Nat) : Nat := ds.foldl (fun a d => 10 * a + d) 0

/-- The exponent part of a JS float literal (after the `e`/`E` marker):
an optional sign followed by digits; if no digits follow, the exponent
part is not consumed and contributes `0`. -/
def expOf (l : List Char) : ℤ :=
  match l with
  | '+' :: rest => if (rest.takeWhile Char.isDigit).isEmpty then 0
      else (digitsToNat ((rest.takeWhile Char.isDigit).map fun c => c.toNat - 48) : ℤ)
  | '-' :: rest => if (rest.takeWhile Char.isDigit).isEmpty then 0
      else -(digitsToNat ((rest.takeWhile Char.isDigit).map fun c => c.toNat - 48) : ℤ)
  | _ => if (l.takeWhile Char.isDigit).isEmpty then 0
      else (digitsToNat ((l.takeWhile Char.isDigit).map fun c => c.toNat - 48) : ℤ)

/-- JS `parseFloat`, syntactic phase: longest valid numeric prefix
`[+|-] digits [. digits] [(e|E) [+|-] digits]`, or a leading `Infinity`
literal, or `NaN` when no digits are found. -/
def jsParseFloat (s : String) : ParseOut :=
  let l0 := s.toList.dropWhile isJsSpace
  let neg := match l0 with | '-' :: _ => true | _ => false
  let l1 := match l0 with
    | '-' :: rest => rest
    | '+' :: rest => rest
    | _ => l0
  if ("Infinity".toList).isPrefixOf l1 then .inf neg
  else
    let intPart := l1.takeWhile Char.isDigit
    let l2 := l1.dropWhile Char.isDigit
    let fracPart := match l2 with
      | '.' :: rest => rest.takeWhile Char.isDigit
      | _ => []
    let l3 := match l2 with
      | '.' :: rest => rest.dropWhile Char.isDigit
      | _ => l2
    if intPart.isEmpty && fracPart.isEmpty then .nan
    else
      let e : ℤ := match l3 with
        | 'e' :: rest => expOf rest
        | 'E' :: rest => expOf rest
        | _ => 0
      .val ⟨neg, intPart.map (fun c => c.toNat - 48),
        fracPart.map (fun c => c.toNat - 48), e⟩

/-- Semantic phase of `parseFloat`: the exact rational value of the
decomposed literal. -/
def partsToRat (p : FloatParts) : ℚ :=
  (if p.neg then -1 else 1) *
    ((digitsToNat p.intDigits : ℚ) +
      (digitsToNat p.fracDigits : ℚ) / 10 ^ p.fracDigits.length) *
    10 ^ p.exp

/-- `safeParseFloat(input)`: empty-input guard, denylist check on the
trimmed string (`=== 'null'`, `=== 'undefined'`, `includes('/')`,
`includes('Infinity')`, `includes('NaN')`), then `parseFloat` with the
`isNaN`/`isFinite`/`<= 0` validation.  `NaN` results are the `.nan`
sentinel. -/
def safeParseFloat (input : String) : JSVal :=
  if input = "" ∨ jsTrim input = "" then .nan
  else if jsTrim input = "null" ∨ jsTrim input = "undefined" ∨
      listContains "/".toList (jsTrim input).toList = true ∨
      listContains "Infinity".toList (jsTrim input).toList = true ∨
      listContains "NaN".toList (jsTrim input).toList = true then .nan
  else match jsParseFloat (jsTrim input) with
    | .val p => if partsToRat p ≤ 0 then .nan else .fin (partsToRat p)
    | _ => .nan

/-- The multiplier applied by `parseWavelength`'s `switch` on the
extracted unit suffix (each `case ... : return value * k` is modelled as
the factor `k`; the `default` branch assumes meters). -/
def wavelengthUnitFactor (unit : String) : ℚ :=
  match unit with
  | "km" => 1e3
  | "m" => 1
  | "cm" => 1e-2
  | "mm" => 1e-3
  | "μm" | "um" | "micron" | "micrometers" => 1e-6
  | "nm" | "nanometers" => 1e-9
  | "pm" | "picometers" => 1e-12
  | "fm" | "femtometers" => 1e-15
  | "å" | "angstrom" | "angstroms" => 1e-10
  | _ => 1

/-- `parseWavelength(input)`. -/
def parseWavelength (input : String) : JSVal :=
  match safeParseFloat input with
  | .fin value => .fin (value * wavelengthUnitFactor (stripUnit input))
  | _ => .nan

/-- The multiplier applied by `parseFrequency`'s `switch` (default
assumes hertz). -/
def frequencyUnitFactor (unit : String) : ℚ :=
  match unit with
  | "thz" => 1e12
  | "ghz" => 1e9
  | "mhz" => 1e6
  | "khz" => 1e3
  | "hz" => 1
  | "phz" => 1e15
  | _ => 1

/-- `parseFrequency(input)`. -/
def parseFrequency (input : String) : JSVal :=
  match safeParseFloat input with
  | .fin value => .fin (value * frequencyUnitFactor (stripUnit input))
  | _ => .nan

/-- The multiplier applied by `parseEnergy`'s `switch` (the Joule case
`return value / 1.602176634e-19` is the factor `1 / 1.602176634e-19`;
default assumes eV). -/
def energyUnitFactor (unit : String) : ℚ :=
  match unit with
  | "tev" => 1e12
  | "gev" => 1e9
  | "mev" => 1e6
  | "kev" => 1e3
  | "ev" => 1
  | "mev_milli" | "mev_m" => 1e-3
  | "j" | "joules" => 1 / 1.602176634e-19
  | _ => 1

/-- `parseEnergy(input)`. -/
def parseEnergy (input : String) : JSVal :=
  match safeParseFloat input with
  | .fin value => .fin (value * energyUnitFactor (stripUnit input))
  | _ => .nan

/-! ### Evaluation lemmas for the parsing pipeline -/

/-- `safeParseFloat` yields the sentinel whenever the trimmed input hits
the denylist check. -/
theorem safeParseFloat_nan_of_denylist (s : String)
    (h : jsTrim s = "null" ∨ jsTrim s = "undefined" ∨
      listContains "/".toList (jsTrim s).toList = true ∨
      listContains "Infinity".toList (jsTrim s).toList = true ∨
      listContains "NaN".toList (jsTrim s).toList = true) :
    safeParseFloat s = .nan := by
  unfold safeParseFloat
  by_cases h0 : (s = "" ∨ jsTrim s = "")
  · rw [if_pos h0]
  · rw [if_neg h0, if_pos h]

/-- `safeParseFloat` yields the sentinel whenever `parseFloat` finds no
numeric prefix (`NaN`) or an `Infinity` literal. -/
theorem safeParseFloat_nan_of_noval (s : String)
    (h : jsParseFloat (jsTrim s) = .nan ∨ ∃ b, jsParseFloat (jsTrim s) = .inf b) :
    safeParseFloat s = .nan := by
  unfold safeParseFloat
  split
  · rfl
  split
  · rfl
  rcases h with h | ⟨b, h⟩ <;> rw [h]

/-- `safeParseFloat` yields the sentinel whenever the parsed value is
non-positive. -/
theorem safeParseFloat_nan_of_nonpos (s : String) (p : FloatParts)
    (hp : jsParseFloat (jsTrim s) = .val p) (hle : partsToRat p ≤ 0) :
    safeParseFloat s = .nan := by
  unfold safeParseFloat
  split
  · rfl
  split
  · rfl
  rw [hp]
  exact if_pos hle

/-- `safeParseFloat` on an accepted input returns the parsed value. -/
theorem safeParseFloat_eval (s : String) (p : FloatParts)
    (h0 : ¬(s = "" ∨ jsTrim s = ""))
    (h1 : ¬(jsTrim s = "null" ∨ jsTrim s = "undefined" ∨
      listContains "/".toList (jsTrim s).toList = true ∨
      listContains "Infinity".toList (jsTrim s).toList = true ∨
      listContains "NaN".toList (jsTrim s).toList = true))
    (h2 : jsParseFloat (jsTrim s) = .val p)
    (h3 : ¬ partsToRat p ≤ 0) :
    safeParseFloat s = .fin (partsToRat p) := by
  unfold safeParseFloat
  rw [if_neg h0, if_neg h1, h2]
  exact if_neg h3

/-- All three parse functions propagate the `NaN` sentinel. -/
theorem parse_all_nan (s : String) (h : safeParseFloat s = .nan) :
    parseWavelength s = .nan ∧ parseFrequency s = .nan ∧ parseEnergy s = .nan := by
  unfold parseWavelength parseFrequency parseEnergy
  rw [h]
  exact ⟨rfl, rfl, rfl⟩

/-- Counterexample to C7 as stated: `"5null"` contains the substring
`"null"` yet `parseWavelength` accepts it and returns `5` (the source
compares the whole trimmed string against `'null'` rather than testing
containment); and `"1nanometers"` carries the recognized suffix
`nanometers` yet parses to `1` instead of `1·1e-9` (the extraction regex
deletes the letter `e`, so the suffix reaches the switch as
`"nanomtrs"`). -/
theorem parse_denylist_counterexample :
    listContains "null".toList "5null".toList = true ∧
    parseWavelength "5null" = .fin 5 ∧
    JSVal.fin 5 ≠ .nan ∧
    stripUnit "1nanometers" = "nanomtrs" ∧
    parseWavelength "1nanometers" = .fin 1 ∧
    JSVal.fin (1:ℚ) ≠ .fin 1e-9 := by
  refine ⟨by decide, ?_, by simp, by decide, ?_, ?_⟩
  · have h2 : jsParseFloat (jsTrim "5null") = .val ⟨false, [5], [], 0⟩ := by decide
    have hs := safeParseFloat_eval "5null" ⟨false, [5], [], 0⟩ (by decide) (by decide)
      h2 (by norm_num [partsToRat, digitsToNat])
    unfold parseWavelength
    rw [hs, show stripUnit "5null" = "null" from by decide,
      show wavelengthUnitFactor "null" = 1 from rfl]
    norm_num [partsToRat, digitsToNat]
  · have h2 : jsParseFloat (jsTrim "1nanometers") = .val ⟨false, [1], [], 0⟩ := by decide
    have hs := safeParseFloat_eval "1nanometers" ⟨false, [1], [], 0⟩ (by decide) (by decide)
      h2 (by norm_num [partsToRat, digitsToNat])
    unfold parseWavelength
    rw [hs, show stripUnit "1nanometers" = "nanomtrs" from by decide,
      show wavelengthUnitFactor "nanomtrs" = 1 from rfl]
    norm_num [partsToRat, digitsToNat]
  · intro hc
    rw [JSVal.fin.injEq] at hc
    norm_num at hc

/-- **C7 (amended).** The three parse functions return the `NaN` sentinel
for every input whose trimmed form equals `'null'` or `'undefined'`
exactly, or contains `'/'`, `'Infinity'` or `'NaN'` as a substring; and
for every input whose numeric portion is missing, an `Infinity` literal,
or non-positive.  On every accepted input the result is the parsed value
times the factor selected by the extracted unit suffix — the input
lowercased with digits, `.`, `+`, `-`, `e` and whitespace deleted — where
each switch case carries the listed factor and any other suffix (the
lenient fallback) is treated as the canonical unit, factor `1`. -/
theorem parse_reject_and_suffix_semantics :
    (∀ s : String, (jsTrim s = "null" ∨ jsTrim s = "undefined" ∨
        listContains "/".toList (jsTrim s).toList = true ∨
        listContains "Infinity".toList (jsTrim s).toList = true ∨
        listContains "NaN".toList (jsTrim s).toList = true) →
      parseWavelength s = .nan ∧ parseFrequency s = .nan ∧ parseEnergy s = .nan) ∧
    (∀ s : String, (jsParseFloat (jsTrim s) = .nan ∨
        ∃ b, jsParseFloat (jsTrim s) = .inf b) →
      parseWavelength s = .nan ∧ parseFrequency s = .nan ∧ parseEnergy s = .nan) ∧
    (∀ (s : String) (p : FloatParts), jsParseFloat (jsTrim s) = .val p →
      partsToRat p ≤ 0 →
      parseWavelength s = .nan ∧ parseFrequency s = .nan ∧ parseEnergy s = .nan) ∧
    (∀ (s : String) (v : ℚ), safeParseFloat s = .fin v →
      parseWavelength s = .fin (v * wavelengthUnitFactor (stripUnit s)) ∧
      parseFrequency s = .fin (v * frequencyUnitFactor (stripUnit s)) ∧
      parseEnergy s = .fin (v * energyUnitFactor (stripUnit s))) ∧
    (wavelengthUnitFactor "km" = 1e3 ∧ wavelengthUnitFactor "m" = 1 ∧
     wavelengthUnitFactor "cm" = 1e-2 ∧ wavelengthUnitFactor "mm" = 1e-3 ∧
     wavelengthUnitFactor "μm" = 1e-6 ∧ wavelengthUnitFactor "um" = 1e-6 ∧
     wavelengthUnitFactor "micron" = 1e-6 ∧ wavelengthUnitFactor "micrometers" = 1e-6 ∧
     wavelengthUnitFactor "nm" = 1e-9 ∧ wavelengthUnitFactor "nanometers" = 1e-9 ∧
     wavelengthUnitFactor "pm" = 1e-12 ∧ wavelengthUnitFactor "picometers" = 1e-12 ∧
     wavelengthUnitFactor "fm" = 1e-15 ∧ wavelengthUnitFactor "femtometers" = 1e-15 ∧
     wavelengthUnitFactor "å" = 1e-10 ∧ wavelengthUnitFactor "angstrom" = 1e-10 ∧
     wavelengthUnitFactor "angstroms" = 1e-10) ∧
    (frequencyUnitFactor "thz" = 1e12 ∧ frequencyUnitFactor "ghz" = 1e9 ∧
     frequencyUnitFactor "mhz" = 1e6 ∧ frequencyUnitFactor "khz" = 1e3 ∧
     frequencyUnitFactor "hz" = 1 ∧ frequencyUnitFactor "phz" = 1e15) ∧
    (energyUnitFactor "tev" = 1e12 ∧ energyUnitFactor "gev" = 1e9 ∧
     energyUnitFactor "mev" = 1e6 ∧ energyUnitFactor "kev" = 1e3 ∧
     energyUnitFactor "ev" = 1 ∧ energyUnitFactor "mev_milli" = 1e-3 ∧
     energyUnitFactor "mev_m" = 1e-3 ∧ energyUnitFactor "j" = 1 / 1.602176634e-19 ∧
     energyUnitFactor "joules" = 1 / 1.602176634e-19) ∧
    (∀ u : String,
      (u ∉ (["km", "m", "cm", "mm", "μm", "um", "micron", "micrometers", "nm",
        "nanometers", "pm", "picometers", "fm", "femtometers", "å", "angstrom",
        "angstroms"] : List String) → wavelengthUnitFactor u = 1) ∧
      (u ∉ (["thz", "ghz", "mhz", "khz", "hz", "phz"] : List String) →
        frequencyUnitFactor u = 1) ∧
      (u ∉ (["tev", "gev", "mev", "kev", "ev", "mev_milli", "mev_m", "j",
        "joules"] : List String) → energyUnitFactor u = 1)) := by
  refine ⟨fun s h => parse_all_nan s (safeParseFloat_nan_of_denylist s h),
    fun s h => parse_all_nan s (safeParseFloat_nan_of_noval s h),
    fun s p hp hle => parse_all_nan s (safeParseFloat_nan_of_nonpos s p hp hle),
    fun s v h => ?_,
    ⟨rfl, rfl, rfl, rfl, rfl, rfl, rfl, rfl, rfl, rfl, rfl, rfl, rfl, rfl, rfl,
      rfl, rfl⟩,
    ⟨rfl, rfl, rfl, rfl, rfl, rfl⟩,
    ⟨rfl, rfl, rfl, rfl, rfl, rfl, rfl, rfl, rfl⟩,
    fun u => ⟨fun hu => ?_, fun hu => ?_, fun hu => ?_⟩⟩
  · unfold parseWavelength parseFrequency parseEnergy
    rw [h]
    exact ⟨rfl, rfl, rfl⟩
  · unfold wavelengthUnitFactor
    split <;> simp_all
  · unfold frequencyUnitFactor
    split <;> simp_all
  · unfold energyUnitFactor
    split <;> simp_all

/-- Witness for C7 (amended): each reject clause at a concrete input —
`" null "` (trimmed equals `null`), `"abc"` (no numeric portion), `"-5"`
(non-positive) — and the accept clause at `"550nm"`, which parses to
`550 · 1e-9` metres, together with the fallback clause at the unknown
suffix `"parsec"`. -/
theorem parse_reject_and_suffix_semantics_witness :
    parseWavelength " null " = .nan ∧
    parseWavelength "abc" = .nan ∧
    parseWavelength "-5" = .nan ∧
    parseWavelength "550nm" = .fin (550 * 1e-9) ∧
    wavelengthUnitFactor "parsec" = 1 := by
  have h := parse_reject_and_suffix_semantics
  refine ⟨(h.1 " null " (by decide)).1,
    (h.2.1 "abc" (Or.inl (by decide))).1,
    (h.2.2.1 "-5" ⟨true, [5], [], 0⟩ (by decide)
      (by norm_num [partsToRat, digitsToNat])).1, ?_,
    (h.2.2.2.2.2.2.2 "parsec").1 (by decide)⟩
  have hs := safeParseFloat_eval "550nm" ⟨false, [5, 5, 0], [], 0⟩ (by decide)
    (by decide) (by decide) (by norm_num [partsToRat, digitsToNat])
  have hd := (h.2.2.2.1 "550nm" (partsToRat ⟨false, [5, 5, 0], [], 0⟩) hs).1
  rw [hd, show stripUnit "550nm" = "nm" from by decide,
    show wavelengthUnitFactor "nm" = 1e-9 from rfl]
  norm_num [partsToRat, digitsToNat]

/-- Counterexample to C8 as stated: `parseEnergy "1meV"` returns `1`
(canonical eV via the default branch), not `1e6`: the extraction regex
deletes `e`, so the suffix reaches the switch as `"mv"` and the `'mev'`
case never fires. -/
theorem parseEnergy_meV_counterexample :
    parseEnergy "1meV" = .fin 1 ∧
    stripUnit "1meV" = "mv" ∧
    JSVal.fin (1:ℚ) ≠ .fin 1e6 := by
  refine ⟨?_, by decide, ?_⟩
  · have h2 : jsParseFloat (jsTrim "1meV") = .val ⟨false, [1], [], 0⟩ := by decide
    have hs := safeParseFloat_eval "1meV" ⟨false, [1], [], 0⟩ (by decide) (by decide)
      h2 (by norm_num [partsToRat, digitsToNat])
    unfold parseEnergy
    rw [hs, show stripUnit "1meV" = "mv" from by decide,
      show energyUnitFactor "mv" = 1 from rfl]
    norm_num [partsToRat, digitsToNat]
  · intro hc
    rw [JSVal.fin.injEq] at hc
    norm_num at hc

/-- **C8 (amended).** Because the suffix-extraction regex deletes every
`e` (after lowercasing), the extracted suffix never contains `'e'`, so
none of `parseEnergy`'s eV-unit cases — `'tev'`, `'gev'`, `'mev'`,
`'kev'`, `'ev'`, `'mev_milli'`, `'mev_m'` — is reachable from any input
string: every input is scaled by factor `1` (canonical eV) unless its
suffix is `'j'`/`'joules'`, and in particular no input is ever scaled as
mega-eV (`1e6`) or milli-eV (`1e-3`) even though the energy unit table
defines `meV` with factor `1e-3`.  Concretely `"1meV"` and `"2MEV"`
parse as `1` and `2` eV. -/
theorem parse_energy_eV_branches_unreachable :
    (∀ s : String, 'e' ∉ (stripUnit s).toList) ∧
    (∀ s : String, stripUnit s ∉
      (["tev", "gev", "mev", "kev", "ev", "mev_milli", "mev_m"] : List String)) ∧
    (∀ s : String, energyUnitFactor (stripUnit s) = 1 ∨
      stripUnit s = "j" ∨ stripUnit s = "joules") ∧
    (∀ s : String, energyUnitFactor (stripUnit s) ≠ 1e6 ∧
      energyUnitFactor (stripUnit s) ≠ 1e-3) ∧
    (parseEnergy "1meV" = .fin 1 ∧ parseEnergy "2MEV" = .fin 2 ∧
      (ENERGY_UNITS.lookup "meV").map (fun u => u.factor) = some 1e-3) := by
  have ha : ∀ s : String, 'e' ∉ (stripUnit s).toList := by
    intro s hmem
    have heq : (stripUnit s).toList =
        (s.toList.map jsToLowerChar).filter (fun c => !(isStrippedChar c)) := rfl
    rw [heq] at hmem
    exact absurd (List.mem_filter.mp hmem).2 (by decide)
  have hb : ∀ s : String, stripUnit s ∉
      (["tev", "gev", "mev", "kev", "ev", "mev_milli", "mev_m"] : List String) := by
    intro s hmem
    have has := ha s
    simp only [List.mem_cons, List.not_mem_nil, or_false] at hmem
    rcases hmem with h | h | h | h | h | h | h <;>
      (rw [h] at has; exact has (by decide))
  have hc : ∀ s : String, energyUnitFactor (stripUnit s) = 1 ∨
      stripUnit s = "j" ∨ stripUnit s = "joules" := by
    intro s
    have hbs := hb s
    unfold energyUnitFactor
    split <;> simp_all
  refine ⟨ha, hb, hc, fun s => ?_, ?_, ?_, rfl⟩
  · rcases hc s with h | h | h
    · rw [h]
      constructor <;> norm_num
    · rw [h, show energyUnitFactor "j" = 1 / 1.602176634e-19 from rfl]
      constructor <;> norm_num
    · rw [h, show energyUnitFactor "joules" = 1 / 1.602176634e-19 from rfl]
      constructor <;> norm_num
  · have h2 : jsParseFloat (jsTrim "1meV") = .val ⟨false, [1], [], 0⟩ := by decide
    have hs := safeParseFloat_eval "1meV" ⟨false, [1], [], 0⟩ (by decide) (by decide)
      h2 (by norm_num [partsToRat, digitsToNat])
    unfold parseEnergy
    rw [hs, show stripUnit "1meV" = "mv" from by decide,
      show energyUnitFactor "mv" = 1 from rfl]
    norm_num [partsToRat, digitsToNat]
  · have h2 : jsParseFloat (jsTrim "2MEV") = .val ⟨false, [2], [], 0⟩ := by decide
    have hs := safeParseFloat_eval "2MEV" ⟨false, [2], [], 0⟩ (by decide) (by decide)
      h2 (by norm_num [partsToRat, digitsToNat])
    unfold parseEnergy
    rw [hs, show stripUnit "2MEV" = "mv" from by decide,
      show energyUnitFactor "mv" = 1 from rfl]
    norm_num [partsToRat, digitsToNat]

/-- Witness for C8 (amended), instantiated at the input `"1meV"`. -/
theorem parse_energy_eV_branches_unreachable_witness :
    'e' ∉ (stripUnit "1meV").toList ∧
    stripUnit "1meV" ∉
      (["tev", "gev", "mev", "kev", "ev", "mev_milli", "mev_m"] : List String) ∧
    energyUnitFactor (stripUnit "1meV") ≠ 1e6 :=
  ⟨parse_energy_eV_branches_unreachable.1 "1meV",
   parse_energy_eV_branches_unreachable.2.1 "1meV",
   (parse_energy_eV_branches_unreachable.2.2.2.1 "1meV").1⟩

/-! ### Display formatting (src/utils/physicsCalculations.js
`formatWavelength`; src/utils/unitConversions.js `getBestWavelengthUnit`).

JS `Number.prototype.toFixed` / `toExponential` are modelled over exact
rationals: round half away from zero to the requested number of decimal
digits (the behaviour on the positive values these call sites produce). -/

/-- The ten decimal digit characters. -/
def digitChars : List Char := ['0', '1', '2', '3', '4', '5', '6', '7', '8', '9']

/-- The character for a decimal digit. -/
def digitChar (n : ℕ) : Char :=
  match n % 10 with
  | 0 => '0' | 1 => '1' | 2 => '2' | 3 => '3' | 4 => '4'
  | 5 => '5' | 6 => '6' | 7 => '7' | 8 => '8' | _ => '9'

/-- Decimal digits of a natural number, most significant first. -/
def natToChars (n : ℕ) : List Char :=
  if n < 10 then [digitChar n]
  else natToChars (n / 10) ++ [digitChar (n % 10)]
termination_by n
decreasing_by exact Nat.div_lt_self (by omega) (by omega)

/-- `d`-digit zero-padded decimal rendering of `m` (the fraction part of
a fixed-point rendering). -/
def padDigits : ℕ → ℕ → List Char
  | 0, _ => []
  | k + 1, m => digitChar (m / 10 ^ k) :: padDigits k (m % 10 ^ k)

/-- JS `x.toFixed(d)` for the non-negative `x < 1e21` these call sites
produce: round half away from zero to `d` decimal digits. -/
def jsToFixed (q : ℚ) (d : ℕ) : String :=
  let scaled := ⌊q * 10 ^ d + 1 / 2⌋.toNat
  String.mk (natToChars (scaled / 10 ^ d) ++
    (if d = 0 then [] else '.' :: padDigits d (scaled % 10 ^ d)))

/-- Fuelled normalization of a positive rational into mantissa `[1, 10)`
and decimal exponent. -/
def expNorm : ℕ → ℚ → ℤ → ℤ × ℚ
  | 0, q, e => (e, q)
  | fuel + 1, q, e =>
    if q < 1 then expNorm fuel (q * 10) (e - 1)
    else if 10 ≤ q then expNorm fuel (q / 10) (e + 1)
    else (e, q)

/-- JS `x.toExponential(d)` for the positive `x` these call sites
produce: `m.dd…e±k` with the mantissa rounded half away from zero to `d`
digits (carrying into the exponent when it rounds up to 10). -/
def jsToExponential (q : ℚ) (d : ℕ) : String :=
  let p := expNorm 1000 q 0
  let r0 := ⌊p.2 * 10 ^ d + 1 / 2⌋.toNat
  let er := if r0 = 10 ^ (d + 1) then (p.1 + 1, 10 ^ d) else (p.1, r0)
  String.mk (natToChars (er.2 / 10 ^ d) ++
    (if d = 0 then [] else '.' :: padDigits d (er.2 % 10 ^ d)) ++
    ('e' :: (if er.1 < 0 then '-' else '+') :: natToChars er.1.natAbs))

/-- `formatWavelength(wavelength)`. -/
def formatWavelength : JSVal → String
  | .fin w =>
    if w ≤ 0 then "Invalid wavelength"
    else if 1e-3 ≤ w then
      if 1 ≤ w then jsToExponential w 2 ++ " m"
      else jsToFixed (w * 1000) 2 ++ " mm"
    else if 1e-6 ≤ w then jsToFixed (w * 1e6) 2 ++ " μm"
    else if 1e-9 ≤ w then jsToFixed (w * 1e9) 2 ++ " nm"
    else if 1e-12 ≤ w then jsToFixed (w * 1e12) 2 ++ " pm"
    else jsToExponential w 2 ++ " m"
  | _ => "Invalid wavelength"

/-- `{ value, unit, symbol }` as returned by the best-unit helpers. -/
structure BestUnit where
  value : ℚ
  unit : String
  symbol : String
deriving DecidableEq, Repr

/-- `getBestWavelengthUnit(wavelengthInMeters)`; `absValue` is inlined as
`|wavelengthInMeters|`. -/
def getBestWavelengthUnit (wavelengthInMeters : ℚ) : BestUnit :=
  if 1e3 ≤ |wavelengthInMeters| then ⟨wavelengthInMeters / 1e3, "km", "km"⟩
  else if 1 ≤ |wavelengthInMeters| then ⟨wavelengthInMeters, "m", "m"⟩
  else if 1e-2 ≤ |wavelengthInMeters| then ⟨wavelengthInMeters / 1e-2, "cm", "cm"⟩
  else if 1e-3 ≤ |wavelengthInMeters| then ⟨wavelengthInMeters / 1e-3, "mm", "mm"⟩
  else if 1e-6 ≤ |wavelengthInMeters| then ⟨wavelengthInMeters / 1e-6, "μm", "μm"⟩
  else if 1e-9 ≤ |wavelengthInMeters| then ⟨wavelengthInMeters / 1e-9, "nm", "nm"⟩
  else if 1e-12 ≤ |wavelengthInMeters| then ⟨wavelengthInMeters / 1e-12, "pm", "pm"⟩
  else if 1e-15 ≤ |wavelengthInMeters| then ⟨wavelengthInMeters / 1e-15, "fm", "fm"⟩
  else ⟨wavelengthInMeters, "m", "m"⟩

/-- Every character that `digitChar` produces is a decimal digit. -/
theorem digitChar_mem (n : ℕ) : digitChar n ∈ digitChars := by
  unfold digitChar
  split <;> decide

/-- A rendered exponent sign is one of the non-digit rendering
characters. -/
theorem signChar_mem (p : Prop) [Decidable p] :
    (if p then '-' else '+') ∈ (['.', 'e', '+', '-'] : List Char) := by
  split <;> decide

/-- Every character of `natToChars` is a decimal digit. -/
theorem natToChars_subset (n : ℕ) : ∀ c ∈ natToChars n, c ∈ digitChars := by
  induction n using Nat.strong_induction_on with
  | _ n ih =>
    rw [natToChars]
    split
    · intro c hc
      rw [List.mem_singleton] at hc
      subst hc
      exact digitChar_mem n
    · intro c hc
      rw [List.mem_append] at hc
      rcases hc with hc | hc
      · exact ih (n / 10) (Nat.div_lt_self (by omega) (by omega)) c hc
      · rw [List.mem_singleton] at hc
        subst hc
        exact digitChar_mem _

/-- Every character of `padDigits` is a decimal digit. -/
theorem padDigits_subset (d m : ℕ) : ∀ c ∈ padDigits d m, c ∈ digitChars := by
  induction d generalizing m with
  | zero => intro c hc; simp [padDigits] at hc
  | succ k ih =>
    intro c hc
    rw [padDigits, List.mem_cons] at hc
    rcases hc with rfl | hc
    · exact digitChar_mem _
    · exact ih _ c hc

/-- Every character of a `jsToFixed` rendering is a digit or the point. -/
theorem jsToFixed_chars (q : ℚ) (d : ℕ) :
    ∀ c ∈ (jsToFixed q d).toList, c ∈ digitChars ∨ c = '.' := by
  intro c hc
  have he : (jsToFixed q d).toList =
      natToChars (⌊q * 10 ^ d + 1 / 2⌋.toNat / 10 ^ d) ++
        (if d = 0 then [] else
          '.' :: padDigits d (⌊q * 10 ^ d + 1 / 2⌋.toNat % 10 ^ d)) := rfl
  rw [he, List.mem_append] at hc
  rcases hc with hc | hc
  · exact Or.inl (natToChars_subset _ c hc)
  · split at hc
    · simp at hc
    · rw [List.mem_cons] at hc
      rcases hc with rfl | hc
      · exact Or.inr rfl
      · exact Or.inl (padDigits_subset _ _ c hc)

/-- Every character of a `jsToExponential` rendering is a digit, the
point, the exponent marker or a sign. -/
theorem jsToExponential_chars (q : ℚ) (d : ℕ) :
    ∀ c ∈ (jsToExponential q d).toList,
      c ∈ digitChars ∨ c ∈ (['.', 'e', '+', '-'] : List Char) := by
  intro c hc
  have he : (jsToExponential q d).toList =
      natToChars ((if (⌊(expNorm 1000 q 0).2 * 10 ^ d + 1 / 2⌋.toNat = 10 ^ (d + 1))
          then ((expNorm 1000 q 0).1 + 1, (10 : ℕ) ^ d)
          else ((expNorm 1000 q 0).1, ⌊(expNorm 1000 q 0).2 * 10 ^ d + 1 / 2⌋.toNat)).2
            / 10 ^ d) ++
        (if d = 0 then [] else '.' :: padDigits d
          ((if (⌊(expNorm 1000 q 0).2 * 10 ^ d + 1 / 2⌋.toNat = 10 ^ (d + 1))
          then ((expNorm 1000 q 0).1 + 1, (10 : ℕ) ^ d)
          else ((expNorm 1000 q 0).1, ⌊(expNorm 1000 q 0).2 * 10 ^ d + 1 / 2⌋.toNat)).2
            % 10 ^ d)) ++
        ('e' :: (if (if (⌊(expNorm 1000 q 0).2 * 10 ^ d + 1 / 2⌋.toNat = 10 ^ (d + 1))
          then ((expNorm 1000 q 0).1 + 1, (10 : ℕ) ^ d)
          else ((expNorm 1000 q 0).1, ⌊(expNorm 1000 q 0).2 * 10 ^ d + 1 / 2⌋.toNat)).1 < 0
            then '-' else '+') ::
          natToChars (Int.natAbs (if (⌊(expNorm 1000 q 0).2 * 10 ^ d + 1 / 2⌋.toNat = 10 ^ (d + 1))
          then ((expNorm 1000 q 0).1 + 1, (10 : ℕ) ^ d)
          else ((expNorm 1000 q 0).1, ⌊(expNorm 1000 q 0).2 * 10 ^ d + 1 / 2⌋.toNat)).1)) := rfl
  rw [he, List.mem_append, List.mem_append] at hc
  rcases hc with (hc | hc) | hc
  · exact Or.inl (natToChars_subset _ c hc)
  · split at hc
    · simp at hc
    · rw [List.mem_cons] at hc
      rcases hc with rfl | hc
      · exact Or.inr (by decide)
      · exact Or.inl (padDigits_subset _ _ c hc)
  · rw [List.mem_cons] at hc
    rcases hc with rfl | hc
    · exact Or.inr (by decide)
    · rw [List.mem_cons] at hc
      rcases hc with rfl | hc
      · exact Or.inr (signChar_mem _)
      · exact Or.inl (natToChars_subset _ c hc)

/-- Characters of an exponential-rendering branch of `formatWavelength`. -/
theorem expBranch_chars (q : ℚ) (suffix : String)
    (hs : ∀ x ∈ suffix.toList,
      x ∈ ([' ', '.', 'e', '+', '-', 'm', 'μ', 'n', 'p'] : List Char)) :
    ∀ c ∈ (jsToExponential q 2 ++ suffix).toList,
      c ∈ digitChars ∨
      c ∈ ([' ', '.', 'e', '+', '-', 'm', 'μ', 'n', 'p'] : List Char) := by
  intro c hc
  rw [show (jsToExponential q 2 ++ suffix).toList =
    (jsToExponential q 2).toList ++ suffix.toList from rfl, List.mem_append] at hc
  rcases hc with hc | hc
  · rcases jsToExponential_chars q 2 c hc with h | h
    · exact Or.inl h
    · exact Or.inr ((by decide : ∀ x ∈ (['.', 'e', '+', '-'] : List Char),
        x ∈ ([' ', '.', 'e', '+', '-', 'm', 'μ', 'n', 'p'] : List Char)) c h)
  · exact Or.inr (hs c hc)

/-- Characters of a fixed-rendering branch of `formatWavelength`. -/
theorem fixedBranch_chars (q : ℚ) (suffix : String)
    (hs : ∀ x ∈ suffix.toList,
      x ∈ ([' ', '.', 'e', '+', '-', 'm', 'μ', 'n', 'p'] : List Char)) :
    ∀ c ∈ (jsToFixed q 2 ++ suffix).toList,
      c ∈ digitChars ∨
      c ∈ ([' ', '.', 'e', '+', '-', 'm', 'μ', 'n', 'p'] : List Char) := by
  intro c hc
  rw [show (jsToFixed q 2 ++ suffix).toList =
    (jsToFixed q 2).toList ++ suffix.toList from rfl, List.mem_append] at hc
  rcases hc with hc | hc
  · rcases jsToFixed_chars q 2 c hc with h | h
    · exact Or.inl h
    · subst h
      exact Or.inr (by decide)
  · exact Or.inr (hs c hc)

/-- Every character of every `formatWavelength` output is a digit, one
of the rendering characters, or a character of the error string. -/
theorem formatWavelength_chars (v : JSVal) :
    ∀ c ∈ (formatWavelength v).toList,
      c ∈ digitChars ∨
      c ∈ ([' ', '.', 'e', '+', '-', 'm', 'μ', 'n', 'p'] : List Char) ∨
      c ∈ "Invalid wavelength".toList := by
  cases v with
  | fin w =>
    simp only [formatWavelength]
    split
    · exact fun c hc => Or.inr (Or.inr hc)
    split
    · split
      · exact fun c hc => (expBranch_chars w " m" (by decide) c hc).imp id Or.inl
      · exact fun c hc =>
          (fixedBranch_chars (w * 1000) " mm" (by decide) c hc).imp id Or.inl
    split
    · exact fun c hc =>
        (fixedBranch_chars (w * 1e6) " μm" (by decide) c hc).imp id Or.inl
    split
    · exact fun c hc =>
        (fixedBranch_chars (w * 1e9) " nm" (by decide) c hc).imp id Or.inl
    split
    · exact fun c hc =>
        (fixedBranch_chars (w * 1e12) " pm" (by decide) c hc).imp id Or.inl
    · exact fun c hc => (expBranch_chars w " m" (by decide) c hc).imp id Or.inl
  | nan => exact fun c hc => Or.inr (Or.inr hc)
  | inf => exact fun c hc => Or.inr (Or.inr hc)
  | ninf => exact fun c hc => Or.inr (Or.inr hc)

/-- **C10.** For every finite wavelength of at least one metre,
`formatWavelength` takes the exponential branch: two-decimal exponential
notation with the `" m"` suffix.  No `formatWavelength` output ever
contains the letter `k` or the letter `c` — so neither a `km` nor a `cm`
rendering exists — even though `getBestWavelengthUnit` selects `km` for
every magnitude at or above `1e3` and `cm` for every magnitude in
`[1e-2, 1)`. -/
theorem formatWavelength_never_km_cm :
    (∀ w : ℚ, 1 ≤ w → formatWavelength (.fin w) = jsToExponential w 2 ++ " m") ∧
    (∀ v : JSVal, 'k' ∉ (formatWavelength v).toList ∧
      'c' ∉ (formatWavelength v).toList) ∧
    (∀ v : ℚ, 1e3 ≤ |v| → getBestWavelengthUnit v = ⟨v / 1e3, "km", "km"⟩) ∧
    (∀ v : ℚ, 1e-2 ≤ |v| → |v| < 1 →
      getBestWavelengthUnit v = ⟨v / 1e-2, "cm", "cm"⟩) := by
  refine ⟨fun w hw => ?_, fun v => ⟨fun hmem => ?_, fun hmem => ?_⟩,
    fun v hv => ?_, fun v h1 h2 => ?_⟩
  · simp only [formatWavelength]
    rw [if_neg (by linarith), if_pos (by linarith), if_pos hw]
  · rcases formatWavelength_chars v 'k' hmem with h | h | h <;>
      exact absurd h (by decide)
  · rcases formatWavelength_chars v 'c' hmem with h | h | h <;>
      exact absurd h (by decide)
  · simp only [getBestWavelengthUnit]
    rw [if_pos hv]
  · simp only [getBestWavelengthUnit]
    rw [if_neg (by linarith), if_neg (by linarith), if_pos h1]

/-- Witness for C10 at concrete inputs: the metre branch at `w = 5`, the
character exclusions there, the `km` selection at `2000` m and the `cm`
selection at `0.1` m. -/
theorem formatWavelength_never_km_cm_witness :
    formatWavelength (.fin 5) = jsToExponential 5 2 ++ " m" ∧
    'k' ∉ (formatWavelength (.fin 5)).toList ∧
    getBestWavelengthUnit 2000 = ⟨2000 / 1e3, "km", "km"⟩ ∧
    getBestWavelengthUnit (1/10) = ⟨(1/10) / 1e-2, "cm", "cm"⟩ := by
  have h := formatWavelength_never_km_cm
  refine ⟨h.1 5 (by norm_num), (h.2.1 (.fin 5)).1, h.2.2.1 2000 ?_,
    h.2.2.2 (1/10) ?_ ?_⟩
  · rw [abs_of_pos (by norm_num : (0:ℚ) < 2000)]
    norm_num
  · rw [abs_of_pos (by norm_num : (0:ℚ) < 1/10)]
    norm_num
  · rw [abs_of_pos (by norm_num : (0:ℚ) < 1/10)]
    norm_num
